import Mathlib

/-!
Verification of the INAV-Toolkit analysis core against its specification.

The filter-response model, noise fingerprinter and log quality gate live in
`inav_toolkit/blackbox_analyzer.py`, which is not present under `src/` (only
its test suite is); those definitions are modelled from the specification, as
marked in their doc comments.  Everything else is embedded directly from
`inav_toolkit/param_analyzer.py` and `inav_toolkit/i18n.py`.
-/

namespace INAV

/-! ### Filter response model (spec 4.2) -/

inductive FilterType where
  | PT1
  | PT2
  | PT3
  | BIQUAD
deriving DecidableEq, Repr

/-- Conversion from radians to degrees, as in Python math.degrees. -/
noncomputable def degreesOf (x : ℝ) : ℝ := x * (180 / Real.pi)

/-- Two-argument arctangent with the C-library sign conventions used by
Python math.atan2. -/
noncomputable def atan2 (y x : ℝ) : ℝ :=
  if 0 < x then Real.arctan (y / x)
  else if x < 0 then
    (if 0 ≤ y then Real.arctan (y / x) + Real.pi else Real.arctan (y / x) - Real.pi)
  else
    (if 0 < y then Real.pi / 2 else if y < 0 then -(Real.pi / 2) else 0)

/-- Modelled from the spec: the function `_phase_shift` of
`inav_toolkit/blackbox_analyzer.py` is not under `src/`.  Per spec 4.2,
the cascaded types PT1/PT2/PT3 (n identical first-order sections) give
`-n * atan(f / fc)` in degrees, BIQUAD gives
`-atan2((f/fc)/Q, 1 - (f/fc)^2)` in degrees, and a zero or negative
cutoff means the filter is disabled, yielding zero phase. -/
noncomputable def phase_shift (ftype : FilterType)
    (signal_freq_hz cutoff_hz q : ℝ) : ℝ :=
  if cutoff_hz ≤ 0 then 0
  else
    match ftype with
    | .PT1 => degreesOf (-(1 * Real.arctan (signal_freq_hz / cutoff_hz)))
    | .PT2 => degreesOf (-(2 * Real.arctan (signal_freq_hz / cutoff_hz)))
    | .PT3 => degreesOf (-(3 * Real.arctan (signal_freq_hz / cutoff_hz)))
    | .BIQUAD =>
        degreesOf (-(atan2 ((signal_freq_hz / cutoff_hz) / q)
          (1 - (signal_freq_hz / cutoff_hz) ^ 2)))

/-- Phase lag expressed both in degrees and in milliseconds. -/
structure PhaseLag where
  degrees : ℝ
  ms : ℝ

/-- Modelled from the spec: `estimate_filter_phase_lag` of
`inav_toolkit/blackbox_analyzer.py` is not under `src/`.  Per spec 4.2 it
returns the phase in degrees together with the equivalent time lag
`ms = (degrees / 360) / signal_freq_hz * 1000`, and a zero or negative
cutoff returns exactly zero degrees and zero milliseconds. -/
noncomputable def estimate_filter_phase_lag (cutoff_hz signal_freq_hz : ℝ)
    (ftype : FilterType) (q : ℝ) : PhaseLag :=
  if cutoff_hz ≤ 0 then ⟨0, 0⟩
  else
    let d := phase_shift ftype signal_freq_hz cutoff_hz q
    ⟨d, d / 360 / signal_freq_hz * 1000⟩

lemma degreesOf_pi_div_four : degreesOf (Real.pi / 4) = 45 := by
  unfold degreesOf
  have hpi := Real.pi_ne_zero
  field_simp
  ring

lemma degreesOf_neg (x : ℝ) : degreesOf (-x) = -degreesOf x := by
  unfold degreesOf; ring

lemma atan2_pos_zero (y : ℝ) (hy : 0 < y) : atan2 y 0 = Real.pi / 2 := by
  unfold atan2
  simp [hy, lt_irrefl]

/-- C1: at its own cutoff frequency (signal frequency equal to a positive
cutoff), the filter phase is exactly -45 degrees for PT1, -90 for PT2,
-135 for PT3, and exactly -90 degrees for BIQUAD at every quality factor
Q greater than zero. -/
theorem phase_shift_at_cutoff (fc q : ℝ) (hfc : 0 < fc) (hq : 0 < q) :
    phase_shift .PT1 fc fc q = -45 ∧
    phase_shift .PT2 fc fc q = -90 ∧
    phase_shift .PT3 fc fc q = -135 ∧
    phase_shift .BIQUAD fc fc q = -90 := by
  have hne : fc ≠ 0 := ne_of_gt hfc
  have hdiv : fc / fc = 1 := div_self hne
  have hnotle : ¬ fc ≤ 0 := not_le.mpr hfc
  have harc : Real.arctan (fc / fc) = Real.pi / 4 := by
    rw [hdiv, Real.arctan_one]
  refine ⟨?_, ?_, ?_, ?_⟩
  · show (if fc ≤ 0 then 0 else degreesOf (-(1 * Real.arctan (fc / fc)))) = -45
    rw [if_neg hnotle, harc, one_mul, degreesOf_neg, degreesOf_pi_div_four]
  · show (if fc ≤ 0 then 0 else degreesOf (-(2 * Real.arctan (fc / fc)))) = -90
    rw [if_neg hnotle, harc, degreesOf_neg]
    have : degreesOf (2 * (Real.pi / 4)) = 90 := by
      unfold degreesOf
      have hpi := Real.pi_ne_zero
      field_simp
      ring
    rw [this]
  · show (if fc ≤ 0 then 0 else degreesOf (-(3 * Real.arctan (fc / fc)))) = -135
    rw [if_neg hnotle, harc, degreesOf_neg]
    have : degreesOf (3 * (Real.pi / 4)) = 135 := by
      unfold degreesOf
      have hpi := Real.pi_ne_zero
      field_simp
      ring
    rw [this]
  · show (if fc ≤ 0 then 0
      else degreesOf (-(atan2 ((fc / fc) / q) (1 - (fc / fc) ^ 2)))) = -90
    rw [if_neg hnotle, hdiv]
    have h0 : (1 : ℝ) - 1 ^ 2 = 0 := by norm_num
    have hyq : (0 : ℝ) < 1 / q := by positivity
    rw [h0, atan2_pos_zero (1 / q) hyq, degreesOf_neg]
    have : degreesOf (Real.pi / 2) = 90 := by
      unfold degreesOf
      have hpi := Real.pi_ne_zero
      field_simp
      ring
    rw [this]

/-- Witness for C1 at the concrete input fc = 100, q = 1/2. -/
theorem phase_shift_at_cutoff_witness :
    (0 : ℝ) < 100 ∧ (0 : ℝ) < 1 / 2 ∧
    phase_shift .PT1 100 100 (1 / 2) = -45 ∧
    phase_shift .PT2 100 100 (1 / 2) = -90 ∧
    phase_shift .PT3 100 100 (1 / 2) = -135 ∧
    phase_shift .BIQUAD 100 100 (1 / 2) = -90 := by
  have h100 : (0 : ℝ) < 100 := by norm_num
  have hq : (0 : ℝ) < 1 / 2 := by norm_num
  obtain ⟨h1, h2, h3, h4⟩ := phase_shift_at_cutoff 100 (1 / 2) h100 hq
  exact ⟨h100, hq, h1, h2, h3, h4⟩

/-- C3: with a zero or negative cutoff the phase-lag estimator returns
exactly zero degrees and zero milliseconds for every signal frequency,
filter type and quality factor. -/
theorem estimate_filter_phase_lag_disabled (cutoff_hz signal_freq_hz q : ℝ)
    (ftype : FilterType) (h : cutoff_hz ≤ 0) :
    estimate_filter_phase_lag cutoff_hz signal_freq_hz ftype q = ⟨0, 0⟩ := by
  unfold estimate_filter_phase_lag
  rw [if_pos h]

/-- Witness for C3 at cutoff 0, signal frequency 50, type PT1. -/
theorem estimate_filter_phase_lag_disabled_witness :
    (0 : ℝ) ≤ 0 ∧ estimate_filter_phase_lag 0 50 .PT1 (1 / 2) = ⟨0, 0⟩ :=
  ⟨le_refl 0, estimate_filter_phase_lag_disabled 0 50 (1 / 2) .PT1 (le_refl 0)⟩

/-! ### Parsed configuration and setting lookup
(`inav_toolkit/param_analyzer.py`, `parse_diff_all` / `get_setting`) -/

/-- Value of one CLI setting, mirroring the result of `_parse_value`:
ON/TRUE/YES and OFF/FALSE/NO become booleans, then an int parse is tried,
then a float parse, and otherwise the raw string is kept. -/
inductive Value where
  | bool (b : Bool)
  | int (i : Int)
  | float (q : ℚ)
  | str (s : String)
deriving DecidableEq, Repr

/-- The slice of the dictionary built by `parse_diff_all` that the setting
lookup path reads: the master section, the per-number control profiles and
the active control profile number.  Python dictionaries are embedded as
association lists with unique keys looked up by `List.lookup`. -/
structure ParsedConfig where
  master : List (String × Value)
  control_profiles : List (Nat × List (String × Value))
  active_control_profile : Nat

/-- Embeds `get_active_control`: the settings dictionary of the active
control profile number, or an empty dictionary when that number is absent. -/
def get_active_control (parsed : ParsedConfig) : List (String × Value) :=
  (parsed.control_profiles.lookup parsed.active_control_profile).getD []

/-- Embeds `get_setting`: the value from the active control profile when the
key is present there, otherwise the value from the master section when
present there, otherwise the supplied default. -/
def get_setting (parsed : ParsedConfig) (key : String) (default : Option Value) :
    Option Value :=
  match (get_active_control parsed).lookup key with
  | some v => some v
  | none =>
    match parsed.master.lookup key with
    | some v => some v
    | none => default

/-- C8: `get_setting` consults the active control profile first, then the
master section, then the supplied default, so an active-profile value always
shadows a master value for the same key. -/
theorem get_setting_shadowing (parsed : ParsedConfig) (key : String)
    (default : Option Value) :
    (∀ v, (get_active_control parsed).lookup key = some v →
      get_setting parsed key default = some v) ∧
    ((get_active_control parsed).lookup key = none →
      ∀ v, parsed.master.lookup key = some v →
        get_setting parsed key default = some v) ∧
    ((get_active_control parsed).lookup key = none →
      parsed.master.lookup key = none →
      get_setting parsed key default = default) := by
  refine ⟨?_, ?_, ?_⟩
  · intro v hv
    unfold get_setting
    rw [hv]
  · intro hp v hv
    unfold get_setting
    rw [hp, hv]
  · intro hp hm
    unfold get_setting
    rw [hp, hm]

/-- Concrete parsed configuration used as witness input: the key pid_p is
set to 40 in master and to 55 in the active control profile 2, while
only master carries gyro_lpf. -/
def parsedExample : ParsedConfig :=
  ⟨[("pid_p", .int 40), ("gyro_lpf", .int 110)],
   [(1, [("pid_p", .int 33)]), (2, [("pid_p", .int 55)])],
   2⟩

/-- Witness for C8 on `parsedExample`: the active-profile value 55 shadows
the master value 40, the master value is used for a key absent from the
profile, and the default is used otherwise. -/
theorem get_setting_shadowing_witness :
    get_setting parsedExample "pid_p" (some (.int 7)) = some (.int 55) ∧
    get_setting parsedExample "gyro_lpf" (some (.int 7)) = some (.int 110) ∧
    get_setting parsedExample "missing" (some (.int 7)) = some (.int 7) :=
  ⟨(get_setting_shadowing parsedExample "pid_p" (some (.int 7))).1
      (.int 55) rfl,
   (get_setting_shadowing parsedExample "gyro_lpf" (some (.int 7))).2.1
      rfl (.int 110) rfl,
   (get_setting_shadowing parsedExample "missing" (some (.int 7))).2.2
      rfl rfl⟩

/-! ### Frame profiles and setup generation
(`inav_toolkit/param_analyzer.py`, `FRAME_PROFILES` / `VOLTAGE_ADJUSTMENTS` /
`generate_setup_config`) -/

/-- Filter block of a frame profile, embedding the `filters` sub-dictionary
of each `FRAME_PROFILES` entry. -/
structure FrameFilters where
  gyro_main_lpf_hz : Int
  dterm_lpf_hz : Int
  dterm_lpf_type : String
  dynamic_gyro_notch_min_hz : Int
  dynamic_gyro_notch_q : Int
  dynamic_gyro_notch_mode : String
deriving DecidableEq, Repr

/-- One `FRAME_PROFILES` entry restricted to the fields the verified code
paths read: the PID dictionary (kept as an ordered association list because
`generate_setup_config` dispatches on key prefixes) and the filter block. -/
structure FrameProfile where
  pids : List (String × Int)
  filters : FrameFilters
deriving DecidableEq, Repr

def profile5 : FrameProfile :=
  ⟨[("mc_p_pitch", 44), ("mc_i_pitch", 75), ("mc_d_pitch", 28),
    ("mc_cd_pitch", 60),
    ("mc_p_roll", 40), ("mc_i_roll", 60), ("mc_d_roll", 26),
    ("mc_cd_roll", 60),
    ("mc_p_yaw", 45), ("mc_i_yaw", 80), ("mc_d_yaw", 0)],
   ⟨110, 110, "PT3", 150, 250, "3D"⟩⟩

def profile7 : FrameProfile :=
  ⟨[("mc_p_pitch", 44), ("mc_i_pitch", 75), ("mc_d_pitch", 25),
    ("mc_cd_pitch", 60),
    ("mc_p_roll", 40), ("mc_i_roll", 60), ("mc_d_roll", 23),
    ("mc_cd_roll", 60),
    ("mc_p_yaw", 45), ("mc_i_yaw", 80), ("mc_d_yaw", 0)],
   ⟨90, 80, "PT3", 100, 250, "3D"⟩⟩

def profile10 : FrameProfile :=
  ⟨[("mc_p_pitch", 40), ("mc_i_pitch", 60), ("mc_d_pitch", 30),
    ("mc_cd_pitch", 40),
    ("mc_p_roll", 38), ("mc_i_roll", 55), ("mc_d_roll", 28),
    ("mc_cd_roll", 40),
    ("mc_p_yaw", 40), ("mc_i_yaw", 60), ("mc_d_yaw", 0)],
   ⟨70, 60, "PT3", 65, 250, "3D"⟩⟩

def profile12 : FrameProfile :=
  ⟨[("mc_p_pitch", 32), ("mc_i_pitch", 50), ("mc_d_pitch", 25),
    ("mc_cd_pitch", 30),
    ("mc_p_roll", 30), ("mc_i_roll", 45), ("mc_d_roll", 23),
    ("mc_cd_roll", 30),
    ("mc_p_yaw", 35), ("mc_i_yaw", 50), ("mc_d_yaw", 0)],
   ⟨55, 45, "PT3", 45, 250, "3D"⟩⟩

def profile15 : FrameProfile :=
  ⟨[("mc_p_pitch", 28), ("mc_i_pitch", 45), ("mc_d_pitch", 22),
    ("mc_cd_pitch", 20),
    ("mc_p_roll", 26), ("mc_i_roll", 40), ("mc_d_roll", 20),
    ("mc_cd_roll", 20),
    ("mc_p_yaw", 30), ("mc_i_yaw", 40), ("mc_d_yaw", 0)],
   ⟨45, 35, "PT3", 30, 250, "3D"⟩⟩

/-- The FRAME_PROFILES table keyed by nominal prop diameter in inches. -/
def FRAME_PROFILES : List (Int × FrameProfile) :=
  [(5, profile5), (7, profile7), (10, profile10), (12, profile12),
   (15, profile15)]

/-- The supported frame sizes, `sorted(FRAME_PROFILES.keys())`. -/
def frameSizes : List Int := [5, 7, 10, 12, 15]

/-- The `pid_scale` column of VOLTAGE_ADJUSTMENTS. -/
def VOLTAGE_ADJUSTMENTS : List (String × ℚ) :=
  [("4S", 1), ("6S", 85 / 100), ("8S", 75 / 100), ("12S", 65 / 100)]

/-- Python round applied to an exact rational: round half to even. -/
def pythonRound (x : ℚ) : Int :=
  let f : Int := Int.floor x
  let r : ℚ := x - f
  if r < 1 / 2 then f
  else if 1 / 2 < r then f + 1
  else if f % 2 = 0 then f else f + 1

/-- Python str.startswith on the character sequences of the strings. -/
def startsWith (s p : String) : Bool := p.toList.isPrefixOf s.toList

/-- Key-prefix test selecting the P, D and CD gains in
`generate_setup_config`. -/
def isPDCD (k : String) : Bool :=
  startsWith k "mc_p_" || startsWith k "mc_d_" || startsWith k "mc_cd_"

/-- Scaling of one PID entry by the voltage scale, embedding the loop body
of `generate_setup_config`: explicit zeros are kept, P/D/CD gains become
`max(5, round(v * scale))`, I gains become
`max(20, round(v * (1 + (scale - 1) * 0.3)))`, anything else is kept. -/
def scalePid (scale : ℚ) (kv : String × Int) : String × Int :=
  if kv.2 = 0 then (kv.1, 0)
  else if isPDCD kv.1 then (kv.1, max 5 (pythonRound (kv.2 * scale)))
  else if startsWith kv.1 "mc_i_" then
    (kv.1, max 20 (pythonRound (kv.2 * (1 + (scale - 1) * (3 / 10)))))
  else kv

/-- Voltage scale actually used:
`VOLTAGE_ADJUSTMENTS.get(voltage, VOLTAGE_ADJUSTMENTS["4S"])["pid_scale"]`,
so an unknown voltage string falls back to the 4S scale of 1. -/
def pidScale (voltage : String) : ℚ :=
  (VOLTAGE_ADJUSTMENTS.lookup voltage).getD 1

/-- Nearest available frame size,
`min(sorted(FRAME_PROFILES.keys()), key=lambda x: abs(x - frame))`:
a left fold that replaces the best candidate only on a strictly smaller
distance, so ties keep the earlier (smaller) size exactly as Python min
does. -/
def nearestFrame (frame : Int) : Int :=
  [(7 : Int), 10, 12, 15].foldl
    (fun best x => if |x - frame| < |best - frame| then x else best) 5

/-- Result record of `generate_setup_config`, restricted to the fields the
verified properties read. -/
structure SetupConfig where
  frame : Int
  voltage : String
  pids : List (String × Int)
  filters : FrameFilters
deriving Repr

/-- Frame size actually used by `generate_setup_config`: the requested size
when it is a table key, otherwise the nearest available size. -/
def setupFrame (frame_inches : Int) : Int :=
  match FRAME_PROFILES.lookup frame_inches with
  | some _ => frame_inches
  | none => nearestFrame frame_inches

/-- Embeds `generate_setup_config`: a frame size absent from the table is
replaced by the nearest available size, the voltage scale is looked up with
the 4S fallback, and the PID table of the selected profile is scaled
entry-wise.  The `getD profile5` default is unreachable because the
selected frame is always a table key. -/
def generate_setup_config (frame_inches : Int) (voltage : String) :
    SetupConfig :=
  let profile := (FRAME_PROFILES.lookup (setupFrame frame_inches)).getD profile5
  ⟨setupFrame frame_inches, voltage,
   profile.pids.map (scalePid (pidScale voltage)), profile.filters⟩

/-- Modelled from the spec: `get_frame_profile` and its `gyro_lpf_range`
field live in `inav_toolkit/blackbox_analyzer.py`, which is not under
`src/`.  The spec fixes the invariant (larger frame implies a strictly
lower expected gyro LPF cutoff range) and the 10-inch versus 5-inch
lower-bound test; the concrete endpoints here instantiate that invariant
consistently with the per-frame cutoff guidance in `check_filters`. -/
def gyro_lpf_range : Int → Option (Int × Int)
  | 5 => some (90, 150)
  | 7 => some (70, 88)
  | 10 => some (50, 69)
  | 12 => some (40, 49)
  | 15 => some (25, 39)
  | _ => none

/-- C2: for supported frame sizes a < b, the expected gyro LPF range of the
larger frame lies strictly below that of the smaller frame (so in
particular its lower bound is strictly smaller), and the per-frame gyro
and D-term cutoff values of FRAME_PROFILES decrease strictly with frame
size. -/
theorem frame_cutoffs_decrease (a b : Int) (ha : a ∈ frameSizes)
    (hb : b ∈ frameSizes) (hab : a < b) :
    ∃ ra rb : Int × Int, gyro_lpf_range a = some ra ∧
      gyro_lpf_range b = some rb ∧ rb.2 < ra.1 ∧ rb.1 < ra.1 ∧
    ∃ pa pb : FrameProfile, FRAME_PROFILES.lookup a = some pa ∧
      FRAME_PROFILES.lookup b = some pb ∧
      pb.filters.gyro_main_lpf_hz < pa.filters.gyro_main_lpf_hz ∧
      pb.filters.dterm_lpf_hz < pa.filters.dterm_lpf_hz := by
  fin_cases ha <;> fin_cases hb <;>
    first
      | exact absurd hab (by decide)
      | exact ⟨_, _, rfl, rfl, by decide, by decide, _, _, rfl, rfl,
          by decide, by decide⟩

/-- Witness for C2 at the concrete pair a = 5, b = 10. -/
theorem frame_cutoffs_decrease_witness :
    ∃ ra rb : Int × Int, gyro_lpf_range 5 = some ra ∧
      gyro_lpf_range 10 = some rb ∧ rb.2 < ra.1 ∧ rb.1 < ra.1 ∧
    ∃ pa pb : FrameProfile, FRAME_PROFILES.lookup 5 = some pa ∧
      FRAME_PROFILES.lookup 10 = some pb ∧
      pb.filters.gyro_main_lpf_hz < pa.filters.gyro_main_lpf_hz ∧
      pb.filters.dterm_lpf_hz < pa.filters.dterm_lpf_hz :=
  frame_cutoffs_decrease 5 10 (by decide) (by decide) (by decide)

lemma foldl_if_mem (s : List Int) (g : Int → Int → Prop) [DecidableRel g] :
    ∀ (l : List Int) (acc : Int), acc ∈ s → (∀ x ∈ l, x ∈ s) →
      (l.foldl (fun best x => if g best x then x else best) acc) ∈ s := by
  intro l
  induction l with
  | nil => intro acc hacc _; simpa using hacc
  | cons x xs ih =>
    intro acc hacc hx
    simp only [List.foldl]
    apply ih
    · by_cases h : g acc x
      · simpa [h] using hx x (by simp)
      · simpa [h] using hacc
    · intro y hy
      exact hx y (by simp [hy])

lemma nearestFrame_mem (frame : Int) : nearestFrame frame ∈ frameSizes := by
  unfold nearestFrame
  exact foldl_if_mem frameSizes
    (fun best x => |x - frame| < |best - frame|)
    [7, 10, 12, 15] 5 (by decide) (by decide)

lemma lookup_mem_frameSizes (n : Int) (p : FrameProfile)
    (h : FRAME_PROFILES.lookup n = some p) : n ∈ frameSizes := by
  by_cases h5 : n = 5
  · subst h5; decide
  by_cases h7 : n = 7
  · subst h7; decide
  by_cases h10 : n = 10
  · subst h10; decide
  by_cases h12 : n = 12
  · subst h12; decide
  by_cases h15 : n = 15
  · subst h15; decide
  exfalso
  have e5 : (n == (5 : Int)) = false := by simp [h5]
  have e7 : (n == (7 : Int)) = false := by simp [h7]
  have e10 : (n == (10 : Int)) = false := by simp [h10]
  have e12 : (n == (12 : Int)) = false := by simp [h12]
  have e15 : (n == (15 : Int)) = false := by simp [h15]
  simp only [FRAME_PROFILES, List.lookup, e5, e7, e10, e12, e15] at h
  exact Option.noConfusion h

lemma setupFrame_mem (frame : Int) : setupFrame frame ∈ frameSizes := by
  unfold setupFrame
  cases hl : FRAME_PROFILES.lookup frame with
  | some p => exact lookup_mem_frameSizes frame p hl
  | none => exact nearestFrame_mem frame

lemma lookup_of_mem_frameSizes (n : Int) (hn : n ∈ frameSizes) :
    ∃ p, FRAME_PROFILES.lookup n = some p := by
  fin_cases hn
  · exact ⟨profile5, rfl⟩
  · exact ⟨profile7, rfl⟩
  · exact ⟨profile10, rfl⟩
  · exact ⟨profile12, rfl⟩
  · exact ⟨profile15, rfl⟩

lemma scalePid_zero (scale : ℚ) (kv : String × Int) (h : kv.2 = 0) :
    scalePid scale kv = (kv.1, 0) := by
  unfold scalePid
  rw [if_pos h]

lemma scalePid_pdcd_ge (scale : ℚ) (kv : String × Int) (h : kv.2 ≠ 0)
    (hk : isPDCD kv.1 = true) : 5 ≤ (scalePid scale kv).2 := by
  unfold scalePid
  rw [if_neg h, if_pos hk]
  exact le_max_left 5 _

lemma scalePid_i_ge (scale : ℚ) (kv : String × Int) (h : kv.2 ≠ 0)
    (hk : isPDCD kv.1 = false) (hi : startsWith kv.1 "mc_i_" = true) :
    20 ≤ (scalePid scale kv).2 := by
  unfold scalePid
  rw [if_neg h, if_neg (by simp [hk]), if_pos hi]
  exact le_max_left 20 _

/-- C9: `generate_setup_config` never produces a dangerous gain.  The
output PID table is the selected profile table scaled entry-wise; an
explicit zero stays exactly zero; every scaled P, D and CD gain is at
least 5 and every scaled I gain at least 20; an unknown voltage uses the
4S scale of 1; and a frame size absent from the table is replaced by the
nearest available size, which is always a table key. -/
theorem generate_setup_config_safe (frame : Int) (voltage : String) :
    ∃ p : FrameProfile,
      FRAME_PROFILES.lookup (generate_setup_config frame voltage).frame =
        some p ∧
      (generate_setup_config frame voltage).pids =
        p.pids.map (scalePid (pidScale voltage)) ∧
      (∀ kv ∈ p.pids, kv.2 = 0 →
        scalePid (pidScale voltage) kv = (kv.1, 0)) ∧
      (∀ kv ∈ p.pids, kv.2 ≠ 0 → isPDCD kv.1 = true →
        5 ≤ (scalePid (pidScale voltage) kv).2) ∧
      (∀ kv ∈ p.pids, kv.2 ≠ 0 → isPDCD kv.1 = false →
        startsWith kv.1 "mc_i_" = true →
        20 ≤ (scalePid (pidScale voltage) kv).2) ∧
      (VOLTAGE_ADJUSTMENTS.lookup voltage = none → pidScale voltage = 1) ∧
      (FRAME_PROFILES.lookup frame = none →
        (generate_setup_config frame voltage).frame = nearestFrame frame) := by
  obtain ⟨p, hp⟩ :=
    lookup_of_mem_frameSizes (setupFrame frame) (setupFrame_mem frame)
  refine ⟨p, hp, ?_, ?_, ?_, ?_, ?_, ?_⟩
  · show ((FRAME_PROFILES.lookup (setupFrame frame)).getD profile5).pids.map
        (scalePid (pidScale voltage)) = p.pids.map (scalePid (pidScale voltage))
    rw [hp]
    rfl
  · intro kv _ h
    exact scalePid_zero _ kv h
  · intro kv _ h hk
    exact scalePid_pdcd_ge _ kv h hk
  · intro kv _ h hk hi
    exact scalePid_i_ge _ kv h hk hi
  · intro h
    unfold pidScale
    rw [h]
    rfl
  · intro h
    show setupFrame frame = nearestFrame frame
    unfold setupFrame
    rw [h]

/-- Witness for C9 at the concrete input frame = 9 (absent from the table,
nearest size 10) and the unknown voltage string 3S (4S fallback scale 1). -/
theorem generate_setup_config_safe_witness :
    FRAME_PROFILES.lookup (9 : Int) = none ∧
    (generate_setup_config 9 "3S").frame = nearestFrame 9 ∧
    pidScale "3S" = 1 ∧
    scalePid (pidScale "3S") ("mc_d_yaw", 0) = ("mc_d_yaw", 0) ∧
    5 ≤ (scalePid (pidScale "3S") ("mc_p_pitch", 40)).2 ∧
    20 ≤ (scalePid (pidScale "3S") ("mc_i_pitch", 60)).2 := by
  obtain ⟨p, h1, h2, h3, h4, h5, h6, h7⟩ := generate_setup_config_safe 9 "3S"
  have hp10 : FRAME_PROFILES.lookup (generate_setup_config 9 "3S").frame =
      some profile10 := rfl
  have hpp : p = profile10 := by
    have := h1.symm.trans hp10
    exact Option.some.inj this
  subst hpp
  refine ⟨rfl, h7 rfl, h6 rfl, ?_, ?_, ?_⟩
  · exact h3 ("mc_d_yaw", 0) (by decide) rfl
  · exact h4 ("mc_p_pitch", 40) (by decide) (by decide) (by decide)
  · exact h5 ("mc_i_pitch", 60) (by decide) (by decide) (by decide) (by decide)

/-! ### Localisation (`inav_toolkit/i18n.py`, function `t`) -/

/-- Loaded catalogs and active locale of the i18n module: each catalog maps
translation keys to template strings, and catalogs are selected by language
code.  Embeds the module state `_catalogs` / `_active_locale`. -/
structure I18nState where
  catalogs : List (String × List (String × String))
  active_locale : String

/-- Base language of a locale code, as computed by `lang.split("_")[0]`:
the prefix of the code before the first underscore. -/
def baseLang (lang : String) : String :=
  String.mk (lang.toList.takeWhile (fun c => c ≠ '_'))

/-- Catalog lookup helper: the entry for a key in the catalog of the given
language, mirroring `_catalogs.get(lang, {})` followed by `catalog.get(key)`. -/
def catalogEntry (st : I18nState) (lang key : String) : Option String :=
  ((st.catalogs.lookup lang).getD []).lookup key

/-- Embeds the fallback chain of `t`: active locale, then the base language
when it differs from the active locale, then English, then the key itself. -/
def templateFor (st : I18nState) (key : String) : String :=
  match catalogEntry st st.active_locale key with
  | some s => s
  | none =>
    match
      (if baseLang st.active_locale ≠ st.active_locale then
        catalogEntry st (baseLang st.active_locale) key
      else none) with
    | some s => s
    | none =>
      match catalogEntry st "en" key with
      | some s => s
      | none => key

/-- Error kinds with which Python str.format can fail. -/
inductive FormatError where
  | keyError
  | indexError
  | valueError
  | typeError
  | attributeError
deriving DecidableEq, Repr

/-- The error kinds named by the except clause around text.format in `t`:
exactly KeyError, IndexError and ValueError.  TypeError and AttributeError
are not in this list and therefore propagate. -/
def caughtFormatErrors : List FormatError :=
  [.keyError, .indexError, .valueError]

/-- Embeds `t`.  Format substitution (Python str.format, external to the
repository) is passed in as a function that either returns the formatted
string or fails with one of the str.format error kinds.  The surrounding
try/except catches only the kinds in `caughtFormatErrors`, returning the
unformatted template as-is; a failure of any other kind propagates out of
`t`, modelled as the `Except.error` result.  With no keyword arguments no
substitution is attempted. -/
def t (st : I18nState)
    (fmt : String → List (String × String) → Except FormatError String)
    (key : String) (kwargs : List (String × String)) :
    Except FormatError String :=
  let text := templateFor st key
  if kwargs ≠ [] then
    match fmt text kwargs with
    | .ok s => .ok s
    | .error e =>
      if e ∈ caughtFormatErrors then .ok text else .error e
  else .ok text

/-- C10 (amended): `t` resolves a key through the fallback chain active
locale, base language, English, key itself; a format substitution that
fails with one of the caught error kinds (KeyError, IndexError,
ValueError) returns the unformatted template as-is; a substitution
failure of any other kind (TypeError, AttributeError) propagates out of
`t`; a successful substitution returns its result; and absent keyword
arguments skip substitution entirely. -/
theorem t_fallback_chain (st : I18nState)
    (fmt : String → List (String × String) → Except FormatError String)
    (key : String) (kwargs : List (String × String)) :
    (∀ s, catalogEntry st st.active_locale key = some s →
      templateFor st key = s) ∧
    (catalogEntry st st.active_locale key = none →
      baseLang st.active_locale ≠ st.active_locale →
      ∀ s, catalogEntry st (baseLang st.active_locale) key = some s →
        templateFor st key = s) ∧
    (catalogEntry st st.active_locale key = none →
      (baseLang st.active_locale = st.active_locale ∨
        catalogEntry st (baseLang st.active_locale) key = none) →
      ∀ s, catalogEntry st "en" key = some s → templateFor st key = s) ∧
    (catalogEntry st st.active_locale key = none →
      (baseLang st.active_locale = st.active_locale ∨
        catalogEntry st (baseLang st.active_locale) key = none) →
      catalogEntry st "en" key = none → templateFor st key = key) ∧
    (∀ e, kwargs ≠ [] → fmt (templateFor st key) kwargs = .error e →
      e ∈ caughtFormatErrors →
      t st fmt key kwargs = .ok (templateFor st key)) ∧
    (∀ e, kwargs ≠ [] → fmt (templateFor st key) kwargs = .error e →
      e ∉ caughtFormatErrors → t st fmt key kwargs = .error e) ∧
    (∀ s, kwargs ≠ [] → fmt (templateFor st key) kwargs = .ok s →
      t st fmt key kwargs = .ok s) ∧
    (kwargs = [] → t st fmt key kwargs = .ok (templateFor st key)) := by
  refine ⟨?_, ?_, ?_, ?_, ?_, ?_, ?_, ?_⟩
  · intro s hs
    unfold templateFor
    rw [hs]
  · intro h0 hb s hs
    unfold templateFor
    rw [h0, if_pos hb, hs]
  · intro h0 hb s hs
    unfold templateFor
    rcases hb with hb | hb
    · rw [h0, if_neg (by simp [hb]), hs]
    · by_cases hne : baseLang st.active_locale ≠ st.active_locale
      · rw [h0, if_pos hne, hb, hs]
      · rw [h0, if_neg hne, hs]
  · intro h0 hb hen
    unfold templateFor
    rcases hb with hb | hb
    · rw [h0, if_neg (by simp [hb]), hen]
    · by_cases hne : baseLang st.active_locale ≠ st.active_locale
      · rw [h0, if_pos hne, hb, hen]
      · rw [h0, if_neg hne, hen]
  · intro e hk hf he
    unfold t
    rw [if_pos hk, hf]
    simp [he]
  · intro e hk hf he
    unfold t
    rw [if_pos hk, hf]
    simp [he]
  · intro s hk hf
    unfold t
    rw [if_pos hk, hf]
  · intro hk
    unfold t
    rw [if_neg (by simp [hk])]

/-- Concrete i18n state used as witness input: a pt_BR catalog without the
looked-up keys, a pt catalog carrying one of them, and an English catalog
carrying a fallback entry. -/
def i18nExample : I18nState :=
  ⟨[("pt_BR", [("verdict.ok", "otimo")]),
    ("pt", [("verdict.bad", "ruim")]),
    ("en", [("verdict.bad", "bad"), ("quality.short", "too short")])],
   "pt_BR"⟩

/-- Format function used as witness input: it fails with KeyError (a
caught kind) on every call. -/
def keyErrorFmt :
    String → List (String × String) → Except FormatError String :=
  fun _ _ => .error .keyError

/-- Witness for C10 on `i18nExample`: the active catalog wins, the base
language catalog is used next, an unknown key falls back to itself, and a
substitution failing with a caught kind returns the unformatted
template. -/
theorem t_fallback_chain_witness :
    templateFor i18nExample "verdict.ok" = "otimo" ∧
    templateFor i18nExample "verdict.bad" = "ruim" ∧
    templateFor i18nExample "nope" = "nope" ∧
    t i18nExample keyErrorFmt "verdict.bad" [("x", "1")] = .ok "ruim" :=
  ⟨(t_fallback_chain i18nExample keyErrorFmt "verdict.ok" []).1 "otimo" rfl,
   (t_fallback_chain i18nExample keyErrorFmt "verdict.bad" []).2.1
      rfl (by decide) "ruim" rfl,
   (t_fallback_chain i18nExample keyErrorFmt "nope" []).2.2.2.1
      rfl (Or.inr rfl) rfl,
   (t_fallback_chain i18nExample keyErrorFmt "verdict.bad"
      [("x", "1")]).2.2.2.2.1 .keyError (by decide) rfl (by decide)⟩

/-- The Python template braces-x[y]-braces (written with escaped braces):
formatting it with a string value for x makes str.format index a string by
the non-integer key y, which raises TypeError. -/
def indexTemplate : String := "\x7bx[y]\x7d"

/-- An English catalog whose entry for quality.detail is `indexTemplate`. -/
def i18nIndexExample : I18nState :=
  ⟨[("en", [("quality.detail", indexTemplate)])], "en"⟩

/-- Python str.format behaviour on `indexTemplate` with a string argument
bound to x: TypeError, a kind the except clause of `t` does not catch. -/
def typeErrorFmt :
    String → List (String × String) → Except FormatError String :=
  fun text _ =>
    if text = indexTemplate then .error .typeError else .ok text

/-- Counterexample to C10 as stated: substituting into the quality.detail
template with a string argument fails with TypeError, which the except
clause does not catch, so `t` propagates the error instead of returning
the unformatted template: `t` is not failure-free. -/
theorem t_raises_on_type_error :
    t i18nIndexExample typeErrorFmt "quality.detail" [("x", "s")] =
      .error .typeError ∧
    t i18nIndexExample typeErrorFmt "quality.detail" [("x", "s")] ≠
      .ok (templateFor i18nIndexExample "quality.detail") := by
  have h1 : t i18nIndexExample typeErrorFmt "quality.detail" [("x", "s")] =
      .error .typeError := rfl
  refine ⟨h1, ?_⟩
  intro h
  rw [h1] at h
  exact Except.noConfusion h

/-! ### Noise fingerprinter (spec 4.3)
Modelled from the spec: `fingerprint_noise` lives in
`inav_toolkit/blackbox_analyzer.py`, which is not under `src/`. -/

/-- One detected spectral peak of a NoiseProfile. -/
structure Peak where
  freq_hz : ℚ
  power_db : ℚ
  prominence : ℚ
deriving DecidableEq, Repr

/-- Per-axis noise profile, restricted to the fields the fingerprinter
reads. -/
structure NoiseProfile where
  axis : String
  peaks : List Peak
  noise_start_freq : ℚ
deriving DecidableEq, Repr

/-- A prop-harmonic frequency band supplied by the caller. -/
structure HarmonicBand where
  min_hz : ℚ
  max_hz : ℚ
deriving DecidableEq, Repr

inductive NoiseSource where
  | prop_harmonics
  | motor_erpm
  | structural
  | unknown
  | none
deriving DecidableEq, Repr

inductive Confidence where
  | high
  | medium
  | low
deriving DecidableEq, Repr

/-- A classified peak in the fingerprint result. -/
structure FingerprintPeak where
  freq_hz : ℚ
  prominence : ℚ
  axis : String
  source : NoiseSource
  confidence : Confidence
  detail : String
  remedy : String
deriving DecidableEq, Repr

/-- Fingerprint result: dominant source and classified peak list. -/
structure FingerprintResult where
  dominant_source : NoiseSource
  peaks : List FingerprintPeak
deriving DecidableEq, Repr

/-- Membership of a frequency in a prop-harmonic band. -/
def inBand (f : ℚ) (b : HarmonicBand) : Bool :=
  decide (b.min_hz ≤ f) && decide (f ≤ b.max_hz)

/-- Modelled from the spec: the small frequency tolerance (a few Hz) of the
cross-axis structural-resonance search. -/
def STRUCTURAL_TOL_HZ : ℚ := 3

/-- Modelled from the spec: the power window within which cross-axis peaks
count as having comparable power. -/
def COMPARABLE_POWER_DB : ℚ := 6

/-- Modelled from the spec: prominence above which an unclassified peak is
reported with medium rather than low confidence. -/
def UNKNOWN_MEDIUM_PROMINENCE : ℚ := 12

/-- The rotational axes. -/
def rotationalAxes : List String := ["Roll", "Pitch", "Yaw"]

/-- Cross-axis test of spec 4.3 step 3: the frequency appears as a peak on
every rotational axis, within the tolerance window and with comparable
power. -/
def onAllRotationalAxes (profiles : List (Option NoiseProfile))
    (f pw : ℚ) : Bool :=
  rotationalAxes.all (fun ax =>
    profiles.any (fun op =>
      match op with
      | some np =>
        np.axis == ax && np.peaks.any (fun p =>
          decide (|p.freq_hz - f| ≤ STRUCTURAL_TOL_HZ) &&
          decide (|p.power_db - pw| ≤ COMPARABLE_POWER_DB))
      | Option.none => false))

/-- Deterministic remedy string keyed by source (spec 4.3 step 5). -/
def remedyFor : NoiseSource → String
  | .prop_harmonics => "Balance or inspect the propellers"
  | .motor_erpm => "Check motor bearings and consider RPM filtering"
  | .structural => "Stiffen frame mounting or add vibration isolation"
  | .unknown => "Investigate with a targeted notch filter"
  | .none => "No action needed"

/-- Classification of one collected peak (spec 4.3 steps 2 to 5): a peak
inside a supplied prop-harmonic band is prop_harmonics with high
confidence; otherwise a peak present on all rotational axes is structural;
remaining peaks are unknown with low or medium confidence by prominence.
Every branch annotates the deterministic remedy for its source. -/
def classifyPeak (profiles : List (Option NoiseProfile))
    (bands : List HarmonicBand) (axis : String) (p : Peak) :
    FingerprintPeak :=
  if bands.any (inBand p.freq_hz) then
    ⟨p.freq_hz, p.prominence, axis, .prop_harmonics, .high,
     "inside a prop-harmonic band", remedyFor .prop_harmonics⟩
  else if onAllRotationalAxes profiles p.freq_hz p.power_db then
    ⟨p.freq_hz, p.prominence, axis, .structural, .medium,
     "same frequency on all rotational axes", remedyFor .structural⟩
  else
    ⟨p.freq_hz, p.prominence, axis, .unknown,
     (if UNKNOWN_MEDIUM_PROMINENCE ≤ p.prominence then .medium else .low),
     "unmatched spectral peak", remedyFor .unknown⟩

/-- Peaks collected across axes (spec 4.3 step 1), each tagged with its
axis; absent profiles contribute nothing. -/
def collectPeaks (profiles : List (Option NoiseProfile)) :
    List (String × Peak) :=
  (profiles.map (fun op =>
    match op with
    | some np => np.peaks.map (fun p => (np.axis, p))
    | Option.none => [])).flatten

/-- Aggregate prominence carried by one source in a classified peak list. -/
def aggregateProminence (fps : List FingerprintPeak) (s : NoiseSource) : ℚ :=
  (fps.filter (fun fp => fp.source == s)).foldl
    (fun acc fp => acc + fp.prominence) 0

/-- Source carrying the highest aggregate prominence, ties keeping the
earlier entry of the fixed source order. -/
def dominantSource (fps : List FingerprintPeak) : NoiseSource :=
  [NoiseSource.motor_erpm, .structural, .unknown].foldl
    (fun best s =>
      if aggregateProminence fps best < aggregateProminence fps s then s
      else best)
    .prop_harmonics

/-- Modelled from the spec: `fingerprint_noise` of
`inav_toolkit/blackbox_analyzer.py` is not under `src/`.  Per spec 4.3 it
collects the peaks of all axes, classifies each one, annotates remedies,
and reports the source with the highest aggregate prominence; with no
peaks at all the result is dominant source none with an empty peak list. -/
def fingerprint_noise (profiles : List (Option NoiseProfile))
    (_n_motors : Nat) (bands : List HarmonicBand) : FingerprintResult :=
  let collected := collectPeaks profiles
  if collected.isEmpty then ⟨.none, []⟩
  else
    let fps := collected.map (fun ap => classifyPeak profiles bands ap.1 ap.2)
    ⟨dominantSource fps, fps⟩

lemma collectPeaks_nil (profiles : List (Option NoiseProfile))
    (h : ∀ op ∈ profiles, ∀ np, op = some np → np.peaks = []) :
    collectPeaks profiles = [] := by
  unfold collectPeaks
  induction profiles with
  | nil => rfl
  | cons op ops ih =>
    simp only [List.map_cons, List.flatten_cons]
    have h1 : (match op with
        | some np => np.peaks.map (fun p => (np.axis, p))
        | Option.none => []) = [] := by
      cases op with
      | some np =>
        have := h (some np) (by simp) np rfl
        simp [this]
      | none => rfl
    rw [h1]
    simp only [List.nil_append]
    exact ih (fun o ho np hnp => h o (by simp [ho]) np hnp)

/-- C4: when the per-axis profiles contain no peaks at all (absent profiles
included), the fingerprinter returns dominant source none and an empty
peak list. -/
theorem fingerprint_noise_empty (profiles : List (Option NoiseProfile))
    (_n_motors : Nat) (bands : List HarmonicBand)
    (h : ∀ op ∈ profiles, ∀ np, op = some np → np.peaks = []) :
    fingerprint_noise profiles _n_motors bands = ⟨.none, []⟩ := by
  unfold fingerprint_noise
  rw [collectPeaks_nil profiles h]
  rfl

/-- Witness for C4 on the concrete input of three absent profiles. -/
theorem fingerprint_noise_empty_witness :
    fingerprint_noise [Option.none, Option.none, Option.none] 4 [] =
      ⟨.none, []⟩ :=
  fingerprint_noise_empty [Option.none, Option.none, Option.none] 4 []
    (by intro op hop np hnp; fin_cases hop <;> cases hnp)

lemma fingerprint_peaks_are_classified (profiles : List (Option NoiseProfile))
    (_n_motors : Nat) (bands : List HarmonicBand) (fp : FingerprintPeak)
    (hfp : fp ∈ (fingerprint_noise profiles _n_motors bands).peaks) :
    ∃ ap ∈ collectPeaks profiles,
      fp = classifyPeak profiles bands ap.1 ap.2 := by
  unfold fingerprint_noise at hfp
  by_cases hc : (collectPeaks profiles).isEmpty
  · rw [if_pos hc] at hfp
    cases hfp
  · rw [if_neg hc] at hfp
    simp only [List.mem_map] at hfp
    obtain ⟨ap, hap, heq⟩ := hfp
    exact ⟨ap, hap, heq.symm⟩

/-- C5: every peak of the fingerprint output whose frequency falls inside a
supplied prop-harmonic band is classified source prop_harmonics with high
confidence. -/
theorem fingerprint_prop_harmonics (profiles : List (Option NoiseProfile))
    (_n_motors : Nat) (bands : List HarmonicBand) (fp : FingerprintPeak)
    (hfp : fp ∈ (fingerprint_noise profiles _n_motors bands).peaks)
    (hband : bands.any (inBand fp.freq_hz) = true) :
    fp.source = .prop_harmonics ∧ fp.confidence = .high := by
  obtain ⟨ap, _, heq⟩ :=
    fingerprint_peaks_are_classified profiles _n_motors bands fp hfp
  have hfreq : fp.freq_hz = ap.2.freq_hz := by
    rw [heq]
    unfold classifyPeak
    split <;> first | rfl | (split <;> rfl)
  rw [hfreq] at hband
  rw [heq]
  unfold classifyPeak
  rw [if_pos hband]
  exact ⟨rfl, rfl⟩

/-- Concrete noise profile used as witness input: one Roll peak at 250 Hz. -/
def rollProfile250 : NoiseProfile :=
  ⟨"Roll", [⟨250, -5, 20⟩], 200⟩

/-- Concrete prop-harmonic band 200 to 300 Hz used as witness input. -/
def band200to300 : HarmonicBand := ⟨200, 300⟩

/-- Witness for C5: the 250 Hz Roll peak inside the 200 to 300 Hz band is
classified prop_harmonics with high confidence. -/
theorem fingerprint_prop_harmonics_witness :
    ∃ fp, (fingerprint_noise [some rollProfile250] 4
        [band200to300]).peaks = [fp] ∧
      fp.source = .prop_harmonics ∧ fp.confidence = .high := by
  refine ⟨classifyPeak [some rollProfile250] [band200to300] "Roll"
    ⟨250, -5, 20⟩, rfl, ?_⟩
  exact fingerprint_prop_harmonics [some rollProfile250] 4 [band200to300]
    _ (by rw [show (fingerprint_noise [some rollProfile250] 4
        [band200to300]).peaks = [classifyPeak [some rollProfile250]
        [band200to300] "Roll" ⟨250, -5, 20⟩] from rfl]; simp)
    (by decide)

/-- C6: every peak of the fingerprint output carries the deterministic
remedy of its source, and that remedy string is non-empty. -/
theorem fingerprint_remedies (profiles : List (Option NoiseProfile))
    (_n_motors : Nat) (bands : List HarmonicBand) (fp : FingerprintPeak)
    (hfp : fp ∈ (fingerprint_noise profiles _n_motors bands).peaks) :
    fp.remedy = remedyFor fp.source ∧ fp.remedy ≠ "" := by
  obtain ⟨ap, _, heq⟩ :=
    fingerprint_peaks_are_classified profiles _n_motors bands fp hfp
  have hr : fp.remedy = remedyFor fp.source := by
    rw [heq]
    unfold classifyPeak
    split
    · rfl
    · split <;> rfl
  refine ⟨hr, ?_⟩
  rw [hr]
  cases fp.source <;> decide

/-- Witness for C6: the single classified peak of a concrete run carries
the non-empty remedy of its source. -/
theorem fingerprint_remedies_witness :
    ∃ fp, (fingerprint_noise [some rollProfile250] 4 []).peaks = [fp] ∧
      fp.remedy = remedyFor fp.source ∧ fp.remedy ≠ "" := by
  refine ⟨classifyPeak [some rollProfile250] [] "Roll" ⟨250, -5, 20⟩,
    rfl, ?_⟩
  exact fingerprint_remedies [some rollProfile250] 4 [] _
    (by rw [show (fingerprint_noise [some rollProfile250] 4 []).peaks =
        [classifyPeak [some rollProfile250] [] "Roll" ⟨250, -5, 20⟩]
        from rfl]; simp)

/-! ### Log quality gate (spec 4.8)
Modelled from the spec: `assess_log_quality` lives in
`inav_toolkit/blackbox_analyzer.py`, which is not under `src/`. -/

/-- The slice of the sample store the quality gate reads: the per-channel
sample arrays, the row count, the sample rate, and the decoder-reported
corrupt-frame ratio when present. -/
structure LogData where
  channels : List (String × List ℚ)
  n_rows : Nat
  sample_rate : ℚ
  corrupt_frame_ratio : Option ℚ

inductive Severity where
  | fatal
  | warning
deriving DecidableEq, Repr

inductive IssueKind where
  | noGyro
  | tooShort
  | corruptFrames
  | lowSampleRate
  | deadSensor (channel : String)
deriving DecidableEq, Repr

structure Issue where
  severity : Severity
  kind : IssueKind
deriving DecidableEq, Repr

inductive Grade where
  | GOOD
  | MARGINAL
  | UNUSABLE
deriving DecidableEq, Repr

structure QualityReport where
  grade : Grade
  usable : Bool
  issues : List Issue
  has_gyro : Bool

/-- Modelled from the spec: the minimum usable sample count below which a
recording is graded UNUSABLE. -/
def MIN_USABLE_SAMPLES : Nat := 500

/-- Modelled from the spec: the corrupt-frame ratio above which a recording
is graded UNUSABLE. -/
def CORRUPT_RATIO_MAX : ℚ := 1 / 10

/-- Modelled from the spec: the sample rate below which meaningful spectral
work is flagged as doubtful. -/
def MIN_SPECTRAL_SAMPLE_RATE : ℚ := 100

def GYRO_CHANNELS : List String := ["gyro_roll", "gyro_pitch", "gyro_yaw"]

/-- Channels whose presence as constant zero marks a dead sensor. -/
def EXPECTED_CHANNELS : List String :=
  ["gyro_roll", "gyro_pitch", "gyro_yaw",
   "setpoint_roll", "setpoint_pitch", "setpoint_yaw",
   "motor0", "motor1", "motor2", "motor3", "throttle"]

def hasGyro (d : LogData) : Bool :=
  d.channels.any (fun c => decide (c.1 ∈ GYRO_CHANNELS))

/-- A nonempty sample array that is constant at exactly zero. -/
def isConstZero (vals : List ℚ) : Bool :=
  !vals.isEmpty && vals.all (fun x => x == 0)

/-- One dead-sensor issue per expected channel that is constant at zero. -/
def deadSensorIssues (d : LogData) : List Issue :=
  d.channels.filterMap (fun c =>
    if decide (c.1 ∈ EXPECTED_CHANNELS) && isConstZero c.2 then
      some ⟨.warning, .deadSensor c.1⟩
    else Option.none)

/-- The fatal conditions of spec 4.8: no gyro channel, recording shorter
than the minimum usable sample count, corrupt-frame ratio above the
threshold. -/
def fatalIssues (d : LogData) : List Issue :=
  (if hasGyro d then [] else [⟨.fatal, .noGyro⟩]) ++
  (if d.n_rows < MIN_USABLE_SAMPLES then [⟨.fatal, .tooShort⟩] else []) ++
  (match d.corrupt_frame_ratio with
   | some r =>
     if CORRUPT_RATIO_MAX < r then [⟨.fatal, .corruptFrames⟩] else []
   | Option.none => [])

/-- The non-fatal flags of spec 4.8 that the verified claims touch: low
sample rate and dead sensors. -/
def warningIssues (d : LogData) : List Issue :=
  (if d.sample_rate < MIN_SPECTRAL_SAMPLE_RATE then
    [⟨.warning, .lowSampleRate⟩]
  else []) ++ deadSensorIssues d

/-- Modelled from the spec: `assess_log_quality` of
`inav_toolkit/blackbox_analyzer.py` is not under `src/`.  Any fatal
condition grades the log UNUSABLE and not usable; otherwise warnings make
it MARGINAL and a clean log is GOOD. -/
def assess_log_quality (d : LogData) : QualityReport :=
  let issues := fatalIssues d ++ warningIssues d
  let grade : Grade :=
    if (fatalIssues d).isEmpty then
      (if (warningIssues d).isEmpty then .GOOD else .MARGINAL)
    else .UNUSABLE
  ⟨grade, if grade = .UNUSABLE then false else true, issues, hasGyro d⟩

lemma assess_unusable_of_fatal (d : LogData)
    (h : (fatalIssues d).isEmpty = false) :
    (assess_log_quality d).grade = .UNUSABLE ∧
    (assess_log_quality d).usable = false := by
  unfold assess_log_quality
  simp [h]

/-- C7: the quality gate grades a log UNUSABLE and not usable when the gyro
channel is absent or the recording is shorter than the minimum usable
sample count, and it reports an explicit dead-sensor issue for every
expected channel that is constant at exactly zero. -/
theorem assess_log_quality_gate (d : LogData) :
    (hasGyro d = false →
      (assess_log_quality d).grade = .UNUSABLE ∧
      (assess_log_quality d).usable = false) ∧
    (d.n_rows < MIN_USABLE_SAMPLES →
      (assess_log_quality d).grade = .UNUSABLE ∧
      (assess_log_quality d).usable = false) ∧
    (∀ name vals, (name, vals) ∈ d.channels → name ∈ EXPECTED_CHANNELS →
      vals ≠ [] → (∀ x ∈ vals, x = 0) →
      (⟨.warning, .deadSensor name⟩ : Issue) ∈
        (assess_log_quality d).issues) := by
  refine ⟨?_, ?_, ?_⟩
  · intro h
    apply assess_unusable_of_fatal
    unfold fatalIssues
    simp [h]
  · intro h
    apply assess_unusable_of_fatal
    unfold fatalIssues
    rw [if_pos h]
    cases hg : hasGyro d <;> simp
  · intro name vals hmem hexp hne hzero
    have hdead : (⟨.warning, .deadSensor name⟩ : Issue) ∈ deadSensorIssues d := by
      unfold deadSensorIssues
      rw [List.mem_filterMap]
      refine ⟨(name, vals), hmem, ?_⟩
      have hc : decide (name ∈ EXPECTED_CHANNELS) = true :=
        decide_eq_true hexp
      have hz : isConstZero vals = true := by
        unfold isConstZero
        have h1 : vals.isEmpty = false := by
          cases vals with
          | nil => exact absurd rfl hne
          | cons a l => rfl
        have h2 : vals.all (fun x => x == 0) = true := by
          rw [List.all_eq_true]
          intro x hx
          exact beq_iff_eq.mpr (hzero x hx)
        simp [h1, h2]
      simp [hc, hz]
    show _ ∈ fatalIssues d ++ warningIssues d
    refine List.mem_append_right _ ?_
    unfold warningIssues
    exact List.mem_append_right _ hdead

/-- Log without any gyro channel used as witness input. -/
def logNoGyro : LogData := ⟨[("motor0", [1, 2, 3])], 5000, 500, Option.none⟩

/-- Log of only 100 rows used as witness input. -/
def logShort : LogData := ⟨[("gyro_roll", [1, 2])], 100, 500, Option.none⟩

/-- Log whose gyro_roll channel is constant at zero, used as witness
input. -/
def logDeadRoll : LogData :=
  ⟨[("gyro_roll", [0, 0, 0]), ("gyro_pitch", [1, 2])], 5000, 500,
   Option.none⟩

/-- Witness for C7 on the three concrete logs: missing gyro and a short
recording are UNUSABLE and not usable, and an all-zero gyro_roll channel
yields a dead-sensor issue. -/
theorem assess_log_quality_gate_witness :
    ((assess_log_quality logNoGyro).grade = .UNUSABLE ∧
      (assess_log_quality logNoGyro).usable = false) ∧
    ((assess_log_quality logShort).grade = .UNUSABLE ∧
      (assess_log_quality logShort).usable = false) ∧
    (⟨.warning, .deadSensor "gyro_roll"⟩ : Issue) ∈
      (assess_log_quality logDeadRoll).issues :=
  ⟨(assess_log_quality_gate logNoGyro).1 rfl,
   (assess_log_quality_gate logShort).2.1 (by decide),
   (assess_log_quality_gate logDeadRoll).2.2 "gyro_roll" [0, 0, 0]
     (by decide) (by decide) (by decide) (by decide)⟩

end INAV
